import Mathlib

set_option maxHeartbeats 1000000

/- Shallow embedding of the sidecar LLM client
   (src/llm_client/src/clients/openai.rs) and of the reference-filter
   dispatch broker (src/sidecar/src/agentic/tool/ref_filter/ref_filter.rs).
   Machine-level details that no claim depends on (the f32 temperature,
   HTTP transport) are modelled abstractly: the temperature is a rational
   and the provider token stream is passed in explicitly as data. -/

/-- Logical model identifiers (LLMType, declared in clients/types.rs which
is outside the staged sources): the variants matched by name in
OpenAIClient::model, plus representative variants that fall into the
catch-all arm of that match. -/
inductive LLMType
  | GPT3_5_16k
  | Gpt4
  | Gpt4Turbo
  | Gpt4_32k
  | Gpt4O
  | Gpt4OMini
  | DeepSeekCoder33BInstruct
  | Mixtral
  | MistralInstruct
  | ClaudeOpus
  | ClaudeSonnet
  deriving DecidableEq

/-- Chat roles of the provider-agnostic message type (LLMClientRole). -/
inductive LLMClientRole
  | System
  | User
  | Assistant
  | Function
  deriving DecidableEq

/-- A function call attached to a chat message (LLMClientFunctionCall). -/
structure LLMClientFunctionCall where
  name : String
  arguments : String
  deriving DecidableEq

/-- Provider-agnostic chat message (LLMClientMessage, declared outside the
staged sources; only the fields the embedded code reads). -/
structure LLMClientMessage where
  role : LLMClientRole
  message : String
  function_call : Option LLMClientFunctionCall
  deriving DecidableEq

def LLMClientMessage.content (m : LLMClientMessage) : String := m.message

def LLMClientMessage.get_function_call (m : LLMClientMessage) :
    Option LLMClientFunctionCall := m.function_call

def LLMClientMessage.system (prompt : String) : LLMClientMessage :=
  ⟨LLMClientRole.System, prompt, none⟩

def LLMClientMessage.user (prompt : String) : LLMClientMessage :=
  ⟨LLMClientRole.User, prompt, none⟩

/-- LLMClientError (clients/types.rs, outside the staged sources): the
variants reachable from the embedded code. The spec taxonomy names map as
UnsupportedModel = UnSupportedModel, WrongCredentialType = WrongAPIKeyType,
FunctionCallMissing = FunctionCallNotPresent, TransportError and
TransportConfigurationError = OpenAPIError. -/
inductive LLMClientError
  | FailedToGetResponse
  | UnSupportedModel
  | OpenAPIError
  | WrongAPIKeyType
  | FunctionCallNotPresent
  | OpenAIDoesNotSupportCompletion
  deriving DecidableEq

/-- Wire-side role tags (async_openai Role). -/
inductive Role
  | System
  | User
  | Assistant
  | Function
  deriving DecidableEq

/-- Wire-side function call payload (async_openai FunctionCall). -/
structure FunctionCall where
  name : String
  arguments : String
  deriving DecidableEq

/-- Wire user message: the fields OpenAIClient::messages sets through the
builder (role and content; the builder succeeds once those are set). -/
structure ChatCompletionRequestUserMessage where
  role : Role
  content : String
  deriving DecidableEq

/-- Wire system message, as built by OpenAIClient::messages. -/
structure ChatCompletionRequestSystemMessage where
  role : Role
  content : String
  deriving DecidableEq

/-- Wire assistant message, as built by OpenAIClient::messages: content
and function_call are each optional and only set on some arms. -/
structure ChatCompletionRequestAssistantMessage where
  role : Role
  content : Option String
  function_call : Option FunctionCall
  deriving DecidableEq

/-- Wire message union (async_openai ChatCompletionRequestMessage,
restricted to the variants the embedded code constructs). -/
inductive ChatCompletionRequestMessage
  | User (m : ChatCompletionRequestUserMessage)
  | System (m : ChatCompletionRequestSystemMessage)
  | Assistant (m : ChatCompletionRequestAssistantMessage)
  deriving DecidableEq

/-- OpenAIClient::model (lines 34-45): the LogicalModel to backend model
string mapping; unlisted variants fall to the catch-all None arm. -/
def OpenAIClient.model : LLMType → Option String
  | LLMType.GPT3_5_16k => some "gpt-3.5-turbo-16k-0613"
  | LLMType.Gpt4 => some "gpt-4-0613"
  | LLMType.Gpt4Turbo => some "gpt-4-1106-preview"
  | LLMType.Gpt4_32k => some "gpt-4-32k-0613"
  | LLMType.Gpt4O => some "gpt-4o"
  | LLMType.Gpt4OMini => some "gpt-4o-mini"
  | LLMType.DeepSeekCoder33BInstruct => some "deepseek-coder-33b"
  | _ => none

/-- One arm of the map inside OpenAIClient::messages (lines 53-100). The
async_openai builders cannot fail here because every required field is
set, so only the Function-role arm without a function call produces an
error. -/
def OpenAIClient.formatMessage (message : LLMClientMessage) :
    Except LLMClientError ChatCompletionRequestMessage :=
  match message.role with
  | LLMClientRole.User =>
    Except.ok (ChatCompletionRequestMessage.User ⟨Role.User, message.content⟩)
  | LLMClientRole.System =>
    Except.ok (ChatCompletionRequestMessage.System ⟨Role.System, message.content⟩)
  | LLMClientRole.Assistant =>
    match message.get_function_call with
    | some fc =>
      Except.ok (ChatCompletionRequestMessage.Assistant
        ⟨Role.Function, none, some ⟨fc.name, fc.arguments⟩⟩)
    | none =>
      Except.ok (ChatCompletionRequestMessage.Assistant
        ⟨Role.Assistant, some message.content, none⟩)
  | LLMClientRole.Function =>
    match message.get_function_call with
    | some fc =>
      Except.ok (ChatCompletionRequestMessage.Assistant
        ⟨Role.Function, some message.content, some ⟨fc.name, fc.arguments⟩⟩)
    | none => Except.error LLMClientError.FunctionCallNotPresent

/-- The Rust collect over an iterator of Results (lines 103-105): the
first error wins, otherwise the whole list is returned. -/
def collectResults :
    List (Except LLMClientError ChatCompletionRequestMessage) →
      Except LLMClientError (List ChatCompletionRequestMessage)
  | [] => Except.ok []
  | Except.error e :: _ => Except.error e
  | Except.ok m :: rest => (collectResults rest).map (fun ms => m :: ms)

/-- OpenAIClient::messages (lines 47-106): normalize each message, then
collect, failing atomically on the first per-message error. -/
def OpenAIClient.messages (msgs : List LLMClientMessage) :
    Except LLMClientError (List ChatCompletionRequestMessage) :=
  collectResults (msgs.map OpenAIClient.formatMessage)

/-- Plain OpenAI credential (provider.rs, outside the staged sources). -/
structure OpenAIProvider where
  api_key : String
  deriving DecidableEq

/-- Azure credential bundle (provider.rs, outside the staged sources). -/
structure AzureOpenAIDeploymentId where
  api_base : String
  api_key : String
  deployment_id : String
  api_version : String
  deriving DecidableEq

/-- LLMProviderAPIKeys (provider.rs, outside the staged sources): the two
variants matched by name in generate_openai_client, plus a representative
variant for its catch-all arm. -/
inductive LLMProviderAPIKeys
  | OpenAI (k : OpenAIProvider)
  | OpenAIAzureConfig (k : AzureOpenAIDeploymentId)
  | TogetherAI (api_key : String)
  deriving DecidableEq

/-- Default api_base of async_openai OpenAIConfig::new(). -/
def OPENAI_API_BASE : String := "https://api.openai.com/v1"

/-- async_openai OpenAIConfig: the fields the embedded code sets. -/
structure OpenAIConfig where
  api_base : String
  api_key : String
  deriving DecidableEq

def OpenAIConfig.new : OpenAIConfig := ⟨OPENAI_API_BASE, ""⟩

def OpenAIConfig.with_api_key (c : OpenAIConfig) (k : String) : OpenAIConfig :=
  { c with api_key := k }

def OpenAIConfig.with_api_base (c : OpenAIConfig) (b : String) : OpenAIConfig :=
  { c with api_base := b }

/-- async_openai AzureConfig: the fields the embedded code sets. -/
structure AzureConfig where
  api_base : String
  api_key : String
  deployment_id : String
  api_version : String
  deriving DecidableEq

def AzureConfig.new : AzureConfig := ⟨"", "", "", ""⟩

def AzureConfig.with_api_base (c : AzureConfig) (b : String) : AzureConfig :=
  { c with api_base := b }

def AzureConfig.with_api_key (c : AzureConfig) (k : String) : AzureConfig :=
  { c with api_key := k }

def AzureConfig.with_deployment_id (c : AzureConfig) (d : String) : AzureConfig :=
  { c with deployment_id := d }

def AzureConfig.with_api_version (c : AzureConfig) (v : String) : AzureConfig :=
  { c with api_version := v }

/-- The backend variant union (OpenAIClientType, lines 22-25), carrying the
configuration each client handle was built from. -/
inductive OpenAIClientType
  | AzureClient (c : AzureConfig)
  | OpenAIClient (c : OpenAIConfig)
  deriving DecidableEq

/-- OpenAIClient::generate_openai_client (lines 108-143): the
DeepSeekCoder33BInstruct escape hatch is evaluated first and forces an
OpenAI-compatible client from an Azure bundle; otherwise credentials are
matched by tag. -/
def OpenAIClient.generate_openai_client (api_key : LLMProviderAPIKeys)
    (llm_model : LLMType) : Except LLMClientError OpenAIClientType :=
  if llm_model = LLMType.DeepSeekCoder33BInstruct then
    match api_key with
    | LLMProviderAPIKeys.OpenAIAzureConfig k =>
      let config := (OpenAIConfig.new.with_api_key k.api_key).with_api_base k.api_base
      Except.ok (OpenAIClientType.OpenAIClient config)
    | _ => Except.error LLMClientError.WrongAPIKeyType
  else
    match api_key with
    | LLMProviderAPIKeys.OpenAI k =>
      let config := OpenAIConfig.new.with_api_key k.api_key
      Except.ok (OpenAIClientType.OpenAIClient config)
    | LLMProviderAPIKeys.OpenAIAzureConfig azure_config =>
      let config := (((AzureConfig.new.with_api_base azure_config.api_base).with_api_key
        azure_config.api_key).with_deployment_id
        azure_config.deployment_id).with_api_version azure_config.api_version
      Except.ok (OpenAIClientType.AzureClient config)
    | _ => Except.error LLMClientError.WrongAPIKeyType

/-- LLMClientCompletionRequest (clients/types.rs, outside the staged
sources): the fields the embedded code reads; the f32 temperature is
modelled as a rational. -/
structure LLMClientCompletionRequest where
  model : LLMType
  messages : List LLMClientMessage
  temperature : Rat
  frequency_penalty : Option Rat
  deriving DecidableEq

/-- LLMClientCompletionResponse (clients/types.rs, outside the staged
sources): transcript so far, latest delta and resolved model string. -/
structure LLMClientCompletionResponse where
  answer_up_until_now : String
  delta : Option String
  model : String
  deriving DecidableEq

def LLMClientCompletionResponse.new (answer : String) (delta : Option String)
    (model : String) : LLMClientCompletionResponse := ⟨answer, delta, model⟩

/-- Delta payload of one streamed choice (async_openai). -/
structure ChatCompletionStreamResponseDelta where
  content : Option String
  deriving DecidableEq

/-- One streamed choice (async_openai ChatChoiceStream). -/
structure ChatChoiceStream where
  delta : ChatCompletionStreamResponseDelta
  deriving DecidableEq

/-- One decoded stream chunk (async_openai
CreateChatCompletionStreamResponse, restricted to the field read). -/
structure CreateChatCompletionStreamResponse where
  choices : List ChatChoiceStream
  deriving DecidableEq

/-- One item yielded by the provider token stream: a decoded chunk, or a
per-chunk transport or decode error. -/
inductive StreamEvent
  | ok (response : CreateChatCompletionStreamResponse)
  | err
  deriving DecidableEq

/-- Outcome of create_stream: either opening the stream failed, or it
opened and yields the given events in order. -/
inductive StreamOutcome
  | openFailed
  | opened (events : List StreamEvent)
  deriving DecidableEq

/-- Delta extraction in the Azure arm of the streaming loop (lines
192-197): first choice, its delta content, flattened, defaulting to the
empty string. -/
def azureDelta (response : CreateChatCompletionStreamResponse) : String :=
  (((response.choices[0]?).map (fun choice => choice.delta.content)).join).getD ""

/-- The Azure streaming loop (lines 189-215): every decoded chunk appends
the extracted delta to the buffer and publishes one response; a per-chunk
error breaks out of the loop. Returns the final buffer and the published
responses in publish order. -/
def azureLoop (model : String) (events : List StreamEvent) (buffer : String) :
    String × List LLMClientCompletionResponse :=
  match events with
  | [] => (buffer, [])
  | StreamEvent.ok response :: rest =>
    let delta := azureDelta response
    ((azureLoop model rest (buffer ++ delta)).1,
      LLMClientCompletionResponse.new (buffer ++ delta) (some delta) model ::
        (azureLoop model rest (buffer ++ delta)).2)
  | StreamEvent.err :: _ => (buffer, [])

/-- The OpenAI-compatible streaming loop (lines 219-241): a decoded chunk
with no choices propagates FailedToGetResponse out of the whole call; a
chunk whose first choice has no delta content publishes nothing; otherwise
the text is appended and one response is published; a per-chunk error
breaks out of the loop. -/
def openaiLoop (model : String) (events : List StreamEvent) (buffer : String) :
    Except LLMClientError String × List LLMClientCompletionResponse :=
  match events with
  | [] => (Except.ok buffer, [])
  | StreamEvent.ok response :: rest =>
    match response.choices[0]? with
    | none => (Except.error LLMClientError.FailedToGetResponse, [])
    | some choice =>
      match choice.delta.content with
      | some text =>
        ((openaiLoop model rest (buffer ++ text)).1,
          LLMClientCompletionResponse.new (buffer ++ text) (some text) model ::
            (openaiLoop model rest (buffer ++ text)).2)
      | none => openaiLoop model rest buffer
  | StreamEvent.err :: _ => (Except.ok buffer, [])

/-- stream_completion (lines 152-245), with the provider stream supplied
explicitly in place of the HTTP transport. Checks the model mapping, then
message normalization, then client construction (the request builder
cannot fail: model, messages and temperature are always set), then runs
the per-variant streaming loop. Returns the Rust return value paired with
the responses published on the channel, in publish order. -/
def stream_completion (api_key : LLMProviderAPIKeys)
    (request : LLMClientCompletionRequest) (stream : StreamOutcome) :
    Except LLMClientError String × List LLMClientCompletionResponse :=
  match OpenAIClient.model request.model with
  | none => (Except.error LLMClientError.UnSupportedModel, [])
  | some model =>
    match OpenAIClient.messages request.messages with
    | Except.error e => (Except.error e, [])
    | Except.ok _wire =>
      match OpenAIClient.generate_openai_client api_key request.model with
      | Except.error e => (Except.error e, [])
      | Except.ok client =>
        match client with
        | OpenAIClientType.AzureClient _ =>
          match stream with
          | StreamOutcome.openFailed => (Except.error LLMClientError.OpenAPIError, [])
          | StreamOutcome.opened events =>
            ((Except.ok (azureLoop model events "").1 :
                Except LLMClientError String),
              (azureLoop model events "").2)
        | OpenAIClientType.OpenAIClient _ =>
          match stream with
          | StreamOutcome.openFailed => (Except.error LLMClientError.OpenAPIError, [])
          | StreamOutcome.opened events => openaiLoop model events ""

/-- completion (lines 247-255): build an internally owned channel whose
receiver is immediately discarded, await stream_completion, rewrap its
result with the question-mark operator. -/
def completion (api_key : LLMProviderAPIKeys)
    (request : LLMClientCompletionRequest) (stream : StreamOutcome) :
    Except LLMClientError String :=
  match (stream_completion api_key request stream).1 with
  | Except.ok result => Except.ok result
  | Except.error e => Except.error e

/- ------------------------------------------------------------------ -/
/- Reference-filter dispatch broker (ref_filter.rs)                    -/
/- ------------------------------------------------------------------ -/

/-- Content of an outline node (chunking/types.rs, outside the staged
sources; only the accessor the embedded code uses). -/
structure OutlineNodeContent where
  content : String
  deriving DecidableEq

/-- An outline node naming one reference (chunking/types.rs, outside the
staged sources; only the accessors the embedded code uses). -/
structure OutlineNode where
  name : String
  fs_file_path : String
  content : OutlineNodeContent
  deriving DecidableEq

/-- Provider tag carried in LLMProperties (outside the staged sources). -/
inductive LLMProvider
  | OpenAI
  | Azure
  | TogetherAI
  deriving DecidableEq

/-- LLMProperties (symbol/identifier.rs, outside the staged sources): the
model, provider and credentials one dispatch uses. -/
structure LLMProperties where
  llm : LLMType
  provider : LLMProvider
  api_key : LLMProviderAPIKeys
  deriving DecidableEq

/-- ReferenceFilterRequest (lines 18-28). -/
structure ReferenceFilterRequest where
  user_instruction : String
  reference_outlines : List OutlineNode
  anchored_symbols : List (String × String × String)
  llm_properties : LLMProperties
  root_id : String
  deriving DecidableEq

/-- ToolError (tool/errors.rs, outside the staged sources): the variants
the embedded code can produce. -/
inductive ToolError
  | MissingTool
  | WrongToolInput
  deriving DecidableEq

/-- ReferenceFilterResponse (lines 68-71). -/
structure ReferenceFilterResponse where
  answer : String
  deriving DecidableEq

/-- ToolOutput (tool/output.rs, outside the staged sources): only the
variant the commented-out success path of invoke would produce. -/
inductive ToolOutput
  | ReferencesFilter (response : ReferenceFilterResponse)
  deriving DecidableEq

/-- ToolInput (tool/input.rs, outside the staged sources): the variant
invoke consumes plus a representative other variant. -/
inductive ToolInput
  | ReferenceFilter (request : ReferenceFilterRequest)
  | Other
  deriving DecidableEq

/-- Modelled from the spec: ToolInput::filter_references_request (declared
outside the staged sources) unwraps the reference-filter variant and fails
on any other tool input. -/
def ToolInput.filter_references_request :
    ToolInput → Except ToolError ReferenceFilterRequest
  | ToolInput.ReferenceFilter request => Except.ok request
  | _ => Except.error ToolError.WrongToolInput

/-- ReferenceFilterBroker::system_message (lines 127-154). -/
def ReferenceFilterBroker.system_message : String :=
  "You are an expert software engineer who is pair programming with another developer.\n- The developer who you are helping with has selected some code which is present in <code_selected> and they intent to change it, the request for change will be provided to you in <user_query>.\n- We found a reference for the code present in <code_selected> which is given to you in <reference> section. This means that any change made to <code_selected> might also require changes to the <reference> section.\n- Given the changes which will be made to <code_selected> because of the <user_query> you need to decide if we need to change the code in <reference> section.\n- Try to give back your reply in a single sentence if possible and keep it very high value.\n- <user_query> which CAN lead to additional changes:\n- - The user might be changing the function definition\n- - The user might be adding a new parameter or removing a parameter for the class\n- - Changing code from sync to async\n- - and many more such cases which changes the structure and the meaning of the code, as these can be breaking changes.\n- You have to decide and be certain if we are going to make a change as true or false, this should be put in a section called <change_required>\n- Making a change requires a lot of effort, so be very certain if we should change the code in our selection in <code_selected> based on the <user_query>\n- In your reply do not mention the <reference> as reference code, but instead talk about the code symbol.\n- Your reason which you will put in the <reason> section of your reply, MUST contain the \"WHY\" for the change. We MUST explain to the user why the code in <reference> might require a change.\n\nYour response must be in the following format:\n\n<reply>\n<reason>\nyour single sentence\n</reason>\n<change_required>\n</change_required>\n</reply>"

/-- ReferenceFilterBroker::user_message (lines 156-195): one prompt per
reference outline, each embedding the user query, the anchored symbols and
that reference. -/
def ReferenceFilterBroker.user_message (request : ReferenceFilterRequest) :
    List String :=
  let references := request.reference_outlines
  let user_query := request.user_instruction
  let anchored_symbols := request.anchored_symbols
  let anchored_symbol_prompt := String.intercalate "\n"
    (anchored_symbols.map (fun t => t.1 ++ " in " ++ t.2.1 ++ ":\n" ++ t.2.2))
  references.map (fun reference =>
    "<user_query>\n" ++ user_query ++ "\n</user_query>\n\n<code_selected>\n" ++
      anchored_symbol_prompt ++ "\n</code_selected>\n\n<reference>\n" ++
      (reference.name ++ " in " ++ reference.fs_file_path ++ "\n" ++
        reference.content.content) ++ "\n</reference>")

deriving instance DecidableEq for Except

/-- What one invoke call produces: the per-request responses written to
stdout by the println, the unit values the buffer_unordered stream
collects (one per dispatched request), and the value invoke returns. -/
structure InvokeResult where
  printed : List (Except LLMClientError String)
  collected : List Unit
  result : Except ToolError ToolOutput
  deriving DecidableEq

/-- ReferenceFilterBroker::invoke (lines 213-268), with the LLM broker
transport supplied as a function from completion request to outcome. Each
user message becomes one completion request carrying the shared system
message at temperature 0.2, dispatched with a freshly created channel
whose receiver is discarded; every response is printed and dropped, and
after the whole stream is drained invoke returns Err(MissingTool) (the
success path is commented out in the source). -/
def ReferenceFilterBroker.invoke (input : ToolInput)
    (transport : LLMClientCompletionRequest → Except LLMClientError String) :
    InvokeResult :=
  match input.filter_references_request with
  | Except.error e => ⟨[], [], Except.error e⟩
  | Except.ok context =>
    let llm_properties := context.llm_properties
    let system_message := LLMClientMessage.system ReferenceFilterBroker.system_message
    let user_messages := ReferenceFilterBroker.user_message context
    let requests := user_messages.map (fun user_message =>
      (⟨llm_properties.llm,
        [system_message, LLMClientMessage.user user_message],
        (0.2 : Rat), none⟩ : LLMClientCompletionRequest))
    let responses := requests.map transport
    ⟨responses, responses.map (fun _ => ()), Except.error ToolError.MissingTool⟩

/-- A snapshot of the buffer_unordered dispatch inside invoke: user
messages not yet started, in flight, and finished. -/
structure BrokerState where
  pending : List String
  inFlight : List String
  done : List String

/-- One scheduler step of stream::iter(...).buffer_unordered(cap) (lines
221-256): a new request may start only while fewer than cap are in flight
(requests start in input order), and any in-flight request may finish. -/
inductive BrokerStep (cap : Nat) : BrokerState → BrokerState → Prop
  | start (t : String) (rest : List String) (s : BrokerState)
      (hcap : s.inFlight.length < cap) (hp : s.pending = t :: rest) :
      BrokerStep cap s ⟨rest, t :: s.inFlight, s.done⟩
  | finish (t : String) (l1 l2 : List String) (s : BrokerState)
      (hf : s.inFlight = l1 ++ t :: l2) :
      BrokerStep cap s ⟨s.pending, l1 ++ l2, t :: s.done⟩

/-- Reachability under the buffer_unordered scheduler. -/
def BrokerReachable (cap : Nat) : BrokerState → BrokerState → Prop :=
  Relation.ReflTransGen (BrokerStep cap)

/-- The concurrency ceiling hard-coded in invoke: buffer_unordered(200)
(line 254). -/
def refFilterConcurrencyCap : Nat := 200

/-- Initial dispatch state of one invoke call: every user message pending,
nothing in flight, nothing finished. -/
def initialBrokerState (context : ReferenceFilterRequest) : BrokerState :=
  ⟨ReferenceFilterBroker.user_message context, [], []⟩

/- ------------------------------------------------------------------ -/
/- Concrete inputs used by witnesses and counterexamples               -/
/- ------------------------------------------------------------------ -/

/-- A plain OpenAI credential bundle. -/
def openaiKey : LLMProviderAPIKeys := LLMProviderAPIKeys.OpenAI ⟨"sk-demo"⟩

/-- An Azure credential bundle. -/
def azureKey : LLMProviderAPIKeys :=
  LLMProviderAPIKeys.OpenAIAzureConfig ⟨"https://azure.example", "az-key", "dep", "2024-02-15"⟩

/-- A completion request for a mapped model (Gpt4O resolves to gpt-4o). -/
def demoRequest : LLMClientCompletionRequest :=
  ⟨LLMType.Gpt4O, [LLMClientMessage.user "hi"], (0.2 : Rat), none⟩

/-- A decoded chunk whose first choice carries the given text. -/
def chunkOf (text : String) : StreamEvent :=
  StreamEvent.ok ⟨[⟨⟨some text⟩⟩]⟩

/-- A decoded chunk whose first choice carries no delta content. -/
def chunkNoDelta : StreamEvent := StreamEvent.ok ⟨[⟨⟨none⟩⟩]⟩

/-- A decoded chunk with no choices at all. -/
def chunkNoChoices : StreamEvent := StreamEvent.ok ⟨[]⟩

/-- The simulated three-chunk stream from the spec. -/
def demoStream3 : StreamOutcome :=
  StreamOutcome.opened [chunkOf "Hel", chunkOf "lo, ", chunkOf "world"]

/-- The transcript snapshots the spec expects for demoStream3. -/
def demoSent3 : List LLMClientCompletionResponse :=
  [⟨"Hel", some "Hel", "gpt-4o"⟩, ⟨"Hello, ", some "lo, ", "gpt-4o"⟩,
    ⟨"Hello, world", some "world", "gpt-4o"⟩]

/-- An outline node used to build broker batches. -/
def demoNode : OutlineNode := ⟨"Foo", "src/foo.rs", ⟨"fn foo()"⟩⟩

/-- LLM properties used by broker batches. -/
def demoProps : LLMProperties :=
  ⟨LLMType.Gpt4O, LLMProvider.OpenAI, LLMProviderAPIKeys.OpenAI ⟨"sk-demo"⟩⟩

/-- A reference-filter request with n copies of the demo reference. -/
def demoContext (n : Nat) : ReferenceFilterRequest :=
  ⟨"rename foo", List.replicate n demoNode,
    [("Foo", "src/foo.rs", "fn foo()")], demoProps, "root-1"⟩

/-- A transport that answers every request successfully. -/
def demoTransport : LLMClientCompletionRequest → Except LLMClientError String :=
  fun _ => Except.ok "ans"

/- ------------------------------------------------------------------ -/
/- Helper lemmas                                                       -/
/- ------------------------------------------------------------------ -/

/-- Every message formats to a wire message or to the missing-function-call
error: the only failing arm of formatMessage is the Function role without
a call. -/
theorem formatMessage_ok_or_missing (m : LLMClientMessage) :
    (∃ w, OpenAIClient.formatMessage m = Except.ok w) ∨
      OpenAIClient.formatMessage m = Except.error LLMClientError.FunctionCallNotPresent := by
  cases m with
  | mk role message fc =>
    cases role <;> cases fc <;>
      first
        | exact Or.inl ⟨_, rfl⟩
        | exact Or.inr rfl

/-- One user message per reference outline. -/
theorem user_message_length (context : ReferenceFilterRequest) :
    (ReferenceFilterBroker.user_message context).length =
      context.reference_outlines.length := by
  simp only [ReferenceFilterBroker.user_message, List.length_map]

/- ------------------------------------------------------------------ -/
/- Claim theorems                                                      -/
/- ------------------------------------------------------------------ -/

/-- Claim C4: a message sequence containing a Function-role message with no
attached function call always normalizes to the missing-function-call
error (the error the spec names FunctionCallMissing), for any content
string and any surrounding messages; the failure is atomic, as the Except
error carries no partial wire-message list. -/
theorem messages_function_role_missing_call (pre post : List LLMClientMessage)
    (content : String) :
    OpenAIClient.messages (pre ++ ⟨LLMClientRole.Function, content, none⟩ :: post) =
      Except.error LLMClientError.FunctionCallNotPresent := by
  induction pre with
  | nil =>
    simp [OpenAIClient.messages, OpenAIClient.formatMessage,
      LLMClientMessage.get_function_call, collectResults]
  | cons m rest ih =>
    rcases formatMessage_ok_or_missing m with ⟨w, hw⟩ | hw <;>
      simp only [OpenAIClient.messages, List.cons_append, List.map_cons,
        collectResults, hw] at ih ⊢
    · rw [ih]; rfl

/-- Claim C5: when the logical model has no backend mapping,
stream_completion fails with UnSupportedModel (the error the spec names
UnsupportedModel) for every credential bundle and every stream outcome, so
the model-mapping check precedes the credential-type check. -/
theorem stream_completion_unsupported_model (k : LLMProviderAPIKeys)
    (r : LLMClientCompletionRequest) (stream : StreamOutcome)
    (h : OpenAIClient.model r.model = none) :
    (stream_completion k r stream).1 = Except.error LLMClientError.UnSupportedModel := by
  simp [stream_completion, h]

/-- Witness for C5: the unmapped Mixtral model paired with a TogetherAI
credential (which would be the WrongAPIKeyType case if credentials were
checked first) still fails with UnSupportedModel. -/
theorem stream_completion_unsupported_model_witness :
    (stream_completion (LLMProviderAPIKeys.TogetherAI "t-key")
        ⟨LLMType.Mixtral, [LLMClientMessage.user "hi"], (0.2 : Rat), none⟩
        (StreamOutcome.opened [])).1 =
      Except.error LLMClientError.UnSupportedModel :=
  stream_completion_unsupported_model _ _ _ (by decide)

/-- Claim C6: for DeepSeekCoder33BInstruct the pinned override is evaluated
before the general credential-tag match: an Azure-tagged bundle produces an
OpenAI-compatible (not Azure) client built from that bundle api_key and
api_base, and every other bundle tag fails with WrongAPIKeyType (the error
the spec names WrongCredentialType), including the plain OpenAI tag that
the general match would otherwise accept. -/
theorem generate_openai_client_deepseek_override :
    (∀ az : AzureOpenAIDeploymentId,
      OpenAIClient.generate_openai_client (LLMProviderAPIKeys.OpenAIAzureConfig az)
        LLMType.DeepSeekCoder33BInstruct =
        Except.ok (OpenAIClientType.OpenAIClient ⟨az.api_base, az.api_key⟩)) ∧
    (∀ k : OpenAIProvider,
      OpenAIClient.generate_openai_client (LLMProviderAPIKeys.OpenAI k)
        LLMType.DeepSeekCoder33BInstruct =
        Except.error LLMClientError.WrongAPIKeyType) ∧
    (∀ s : String,
      OpenAIClient.generate_openai_client (LLMProviderAPIKeys.TogetherAI s)
        LLMType.DeepSeekCoder33BInstruct =
        Except.error LLMClientError.WrongAPIKeyType) :=
  ⟨fun _ => rfl, fun _ => rfl, fun _ => rfl⟩

/-- Claim C9: the non-streaming completion is extensionally equal to
stream_completion run with an internally owned, discarded channel; it
returns exactly the first component of stream_completion and ignores the
published responses. -/
theorem completion_eq_stream_completion (k : LLMProviderAPIKeys)
    (r : LLMClientCompletionRequest) (stream : StreamOutcome) :
    completion k r stream = (stream_completion k r stream).1 := by
  unfold completion
  rcases h : (stream_completion k r stream).1 with e | v <;> simp [h]

/-- A published response list is a chain starting from the given
transcript: each response carries Some delta and its transcript is the
previous transcript extended by exactly that delta. -/
def chainedFrom (prev : String) : List LLMClientCompletionResponse → Prop
  | [] => True
  | resp :: rest =>
    (∃ d, resp.delta = some d ∧ resp.answer_up_until_now = prev ++ d) ∧
      chainedFrom resp.answer_up_until_now rest

/-- The Azure loop publishes a chained response list. -/
theorem azureLoop_chained (ms : String) (events : List StreamEvent) (buffer : String) :
    chainedFrom buffer (azureLoop ms events buffer).2 := by
  induction events generalizing buffer with
  | nil => exact trivial
  | cons e rest ih =>
    cases e with
    | ok response => exact ⟨⟨azureDelta response, rfl, rfl⟩, ih _⟩
    | err => exact trivial

/-- The OpenAI-compatible loop publishes a chained response list. -/
theorem openaiLoop_chained (ms : String) (events : List StreamEvent) (buffer : String) :
    chainedFrom buffer (openaiLoop ms events buffer).2 := by
  induction events generalizing buffer with
  | nil => exact trivial
  | cons e rest ih =>
    cases e with
    | err => exact trivial
    | ok response =>
      cases hc : response.choices[0]? with
      | none => simp [openaiLoop, hc, chainedFrom]
      | some choice =>
        cases hd : choice.delta.content with
        | none => simpa [openaiLoop, hc, hd] using ih buffer
        | some text =>
          simp only [openaiLoop, hc, hd]
          exact ⟨⟨text, rfl, rfl⟩, ih _⟩

/-- A chained response list has non-decreasing transcript lengths. -/
theorem chainedFrom_length_le (prev : String) (l : List LLMClientCompletionResponse)
    (h : chainedFrom prev l) :
    l.Chain' (fun a b => a.answer_up_until_now.length ≤ b.answer_up_until_now.length) := by
  induction l generalizing prev with
  | nil => exact List.chain'_nil
  | cons r rest ih =>
    obtain ⟨hr, hrest⟩ := h
    cases rest with
    | nil => simp
    | cons r2 rest2 =>
      refine List.Chain'.cons ?_ (ih _ hrest)
      obtain ⟨⟨d, hd1, hd2⟩, h2⟩ := hrest
      rw [hd2, String.length_append]
      exact Nat.le_add_right _ _

/-- Whatever the credentials, request and stream, the published responses
of stream_completion form a chain starting from the empty transcript. -/
theorem stream_completion_sent_chained (k : LLMProviderAPIKeys)
    (r : LLMClientCompletionRequest) (stream : StreamOutcome) :
    chainedFrom "" (stream_completion k r stream).2 := by
  unfold stream_completion
  cases hm : OpenAIClient.model r.model with
  | none => exact trivial
  | some ms =>
    cases hw : OpenAIClient.messages r.messages with
    | error e => exact trivial
    | ok w =>
      cases hg : OpenAIClient.generate_openai_client k r.model with
      | error e => exact trivial
      | ok client =>
        cases client with
        | AzureClient c =>
          cases stream with
          | openFailed => exact trivial
          | opened events => exact azureLoop_chained ms events ""
        | OpenAIClient c =>
          cases stream with
          | openFailed => exact trivial
          | opened events => exact openaiLoop_chained ms events ""

/-- Claim C3: for every request the published transcript snapshots form a
chain in chunk-arrival order (each latest_delta is present and is exactly
the suffix appended to the previous transcript, so transcript lengths are
non-decreasing), and the simulated chunks Hel, lo-comma-space, world
publish exactly the snapshots Hel, Hello-comma-space, Hello-comma-world in
that order with final result Hello-comma-world, on both backend paths. -/
theorem stream_completion_monotone_chain (k : LLMProviderAPIKeys)
    (r : LLMClientCompletionRequest) (stream : StreamOutcome) :
    chainedFrom "" (stream_completion k r stream).2 ∧
    (stream_completion k r stream).2.Chain'
      (fun a b => a.answer_up_until_now.length ≤ b.answer_up_until_now.length) ∧
    (stream_completion openaiKey demoRequest demoStream3).2 = demoSent3 ∧
    (stream_completion openaiKey demoRequest demoStream3).1 = Except.ok "Hello, world" ∧
    (stream_completion azureKey demoRequest demoStream3).2 = demoSent3 ∧
    (stream_completion azureKey demoRequest demoStream3).1 = Except.ok "Hello, world" :=
  ⟨stream_completion_sent_chained k r stream,
    chainedFrom_length_le _ _ (stream_completion_sent_chained k r stream),
    by decide, by decide, by decide, by decide⟩

/-- An event that is a decoded chunk has at least one choice. -/
def eventHasChoice : StreamEvent → Prop
  | StreamEvent.ok response => response.choices ≠ []
  | StreamEvent.err => True

/-- When every decoded chunk has at least one choice, the OpenAI-compatible
loop always ends in Ok. -/
theorem openaiLoop_ok (ms : String) (events : List StreamEvent) (buffer : String)
    (h : ∀ e ∈ events, eventHasChoice e) :
    ∃ s, (openaiLoop ms events buffer).1 = Except.ok s := by
  induction events generalizing buffer with
  | nil => exact ⟨buffer, rfl⟩
  | cons e rest ih =>
    have hrest : ∀ x ∈ rest, eventHasChoice x := fun x hx => h x (List.mem_cons_of_mem _ hx)
    cases e with
    | err => exact ⟨buffer, rfl⟩
    | ok response =>
      have hne : response.choices ≠ [] := h _ (List.mem_cons_self _ _)
      cases hc : response.choices with
      | nil => exact absurd hc hne
      | cons choice others =>
        have h0 : response.choices[0]? = some choice := by rw [hc]; simp
        cases hd : choice.delta.content with
        | none => simpa [openaiLoop, h0, hd] using ih buffer hrest
        | some text =>
          obtain ⟨s, hs⟩ := ih (buffer ++ text) hrest
          exact ⟨s, by simp [openaiLoop, h0, hd, hs]⟩

/-- Claim C1 (amended): once the stream has opened, the Azure path always
returns Ok with the transcript accumulated so far, terminating early on a
per-chunk error; the OpenAI-compatible path does the same provided every
decoded chunk has at least one choice (a chunk with no choices instead
aborts the call with FailedToGetResponse); for the simulated stream
emitting Hel and then a decode error the result is Ok Hel on both paths. -/
theorem stream_completion_partial_transcript_ok (k : LLMProviderAPIKeys)
    (r : LLMClientCompletionRequest) (ms : String)
    (w : List ChatCompletionRequestMessage) (cl : OpenAIClientType)
    (events : List StreamEvent)
    (hm : OpenAIClient.model r.model = some ms)
    (hw : OpenAIClient.messages r.messages = Except.ok w)
    (hg : OpenAIClient.generate_openai_client k r.model = Except.ok cl)
    (hch : (∃ c, cl = OpenAIClientType.AzureClient c) ∨ ∀ e ∈ events, eventHasChoice e) :
    (∃ s, (stream_completion k r (StreamOutcome.opened events)).1 = Except.ok s) ∧
    (stream_completion openaiKey demoRequest
      (StreamOutcome.opened [chunkOf "Hel", StreamEvent.err])).1 = Except.ok "Hel" ∧
    (stream_completion azureKey demoRequest
      (StreamOutcome.opened [chunkOf "Hel", StreamEvent.err])).1 = Except.ok "Hel" := by
  refine ⟨?_, by decide, by decide⟩
  unfold stream_completion
  simp only [hm, hw, hg]
  cases cl with
  | AzureClient c => exact ⟨_, rfl⟩
  | OpenAIClient c =>
    rcases hch with ⟨c2, hc2⟩ | hall
    · cases hc2
    · exact openaiLoop_ok ms events "" hall

/-- Witness for C1: at the concrete Azure credentials, model and simulated
one-chunk stream the hypotheses hold and the theorem applies. -/
theorem stream_completion_partial_transcript_ok_witness :
    (∃ s, (stream_completion azureKey demoRequest
      (StreamOutcome.opened [chunkOf "Hel", StreamEvent.err])).1 = Except.ok s) ∧
    (stream_completion openaiKey demoRequest
      (StreamOutcome.opened [chunkOf "Hel", StreamEvent.err])).1 = Except.ok "Hel" ∧
    (stream_completion azureKey demoRequest
      (StreamOutcome.opened [chunkOf "Hel", StreamEvent.err])).1 = Except.ok "Hel" :=
  stream_completion_partial_transcript_ok azureKey demoRequest "gpt-4o"
    [ChatCompletionRequestMessage.User ⟨Role.User, "hi"⟩]
    (OpenAIClientType.AzureClient ⟨"https://azure.example", "az-key", "dep", "2024-02-15"⟩)
    [chunkOf "Hel", StreamEvent.err] (by decide) (by decide) (by decide)
    (Or.inl ⟨_, rfl⟩)

/-- Claim C1 counterexample: on the OpenAI-compatible path a successfully
decoded chunk with no choices, followed by a decode error, makes
stream_completion return an error even though streaming has begun, so the
claim that the function never returns an error once streaming has begun
(on either path) is false as stated. -/
theorem stream_completion_error_after_streaming :
    (stream_completion openaiKey demoRequest
      (StreamOutcome.opened [chunkNoChoices, StreamEvent.err])).1 =
      Except.error LLMClientError.FailedToGetResponse := by decide

/-- Claim C7 (amended): on the Azure path every decoded chunk publishes
exactly one response whose delta is Some of the extracted text, with an
absent delta or absent choice defaulting to the empty string; on the
OpenAI-compatible path only a chunk whose first choice carries Some text
publishes (with exactly that text as the delta), a chunk whose first
choice carries no delta content publishes nothing, and a chunk with no
choices aborts the call with FailedToGetResponse. -/
theorem streaming_loops_per_chunk (ms buffer : String)
    (response : CreateChatCompletionStreamResponse) (rest : List StreamEvent) :
    (azureLoop ms (StreamEvent.ok response :: rest) buffer).2 =
      LLMClientCompletionResponse.new (buffer ++ azureDelta response)
        (some (azureDelta response)) ms ::
        (azureLoop ms rest (buffer ++ azureDelta response)).2 ∧
    (∀ text others, response.choices = ⟨⟨some text⟩⟩ :: others →
      (openaiLoop ms (StreamEvent.ok response :: rest) buffer).2 =
        LLMClientCompletionResponse.new (buffer ++ text) (some text) ms ::
          (openaiLoop ms rest (buffer ++ text)).2) ∧
    (∀ others, response.choices = ⟨⟨none⟩⟩ :: others →
      openaiLoop ms (StreamEvent.ok response :: rest) buffer =
        openaiLoop ms rest buffer) ∧
    (response.choices = [] →
      openaiLoop ms (StreamEvent.ok response :: rest) buffer =
        (Except.error LLMClientError.FailedToGetResponse, [])) := by
  refine ⟨rfl, ?_, ?_, ?_⟩
  · intro text others hc
    have h0 : response.choices[0]? = some ⟨⟨some text⟩⟩ := by rw [hc]; simp
    simp [openaiLoop, h0]
  · intro others hc
    have h0 : response.choices[0]? = some ⟨⟨none⟩⟩ := by rw [hc]; simp
    simp [openaiLoop, h0]
  · intro hc
    have h0 : response.choices[0]? = none := by rw [hc]; simp
    simp [openaiLoop, h0]

/-- Claim C7 counterexample: on the OpenAI-compatible path a decoded chunk
whose first choice carries no delta content publishes no response at all,
instead of publishing a response with latest_delta Some of empty text as
the claim states for every chunk on both variants. -/
theorem openai_no_delta_publishes_nothing :
    (stream_completion openaiKey demoRequest (StreamOutcome.opened [chunkNoDelta])).2 =
      ([] : List LLMClientCompletionResponse) := by decide

/-- Chunks successfully decoded before the first per-chunk error. -/
def okCount : List StreamEvent → Nat
  | [] => 0
  | StreamEvent.err :: _ => 0
  | StreamEvent.ok _ :: rest => okCount rest + 1

/-- The Azure loop publishes exactly one response per decoded chunk before
the first error. -/
theorem azureLoop_length (ms : String) (events : List StreamEvent) (buffer : String) :
    (azureLoop ms events buffer).2.length = okCount events := by
  induction events generalizing buffer with
  | nil => rfl
  | cons e rest ih =>
    cases e with
    | ok response => simp [azureLoop, okCount, ih]
    | err => rfl

/-- Every response the Azure loop publishes carries Some delta. -/
theorem azureLoop_delta_some (ms : String) (events : List StreamEvent) (buffer : String) :
    ∀ resp ∈ (azureLoop ms events buffer).2, resp.delta ≠ none := by
  induction events generalizing buffer with
  | nil => intro resp h; cases h
  | cons e rest ih =>
    cases e with
    | err => intro resp h; cases h
    | ok response =>
      intro resp h
      rcases List.mem_cons.mp h with h1 | h2
      · rw [h1]; simp [LLMClientCompletionResponse.new]
      · exact ih _ resp h2

/-- Claim C10: on the Azure path every successfully decoded chunk before
the first per-chunk error publishes exactly one response whose latest
delta is Some of the (possibly empty) extracted text, and transcript
growth per response is non-strict: a chunk with no choices and a chunk
whose first choice has no delta content publish identical consecutive
empty snapshots. -/
theorem azure_publishes_every_decoded_chunk (ms buffer : String)
    (events : List StreamEvent) :
    ((azureLoop ms events buffer).2.length = okCount events ∧
      ∀ resp ∈ (azureLoop ms events buffer).2, resp.delta ≠ none) ∧
    (stream_completion azureKey demoRequest
      (StreamOutcome.opened [chunkNoChoices, chunkNoDelta])).2 =
      [⟨"", some "", "gpt-4o"⟩, ⟨"", some "", "gpt-4o"⟩] :=
  ⟨⟨azureLoop_length ms events buffer, azureLoop_delta_some ms events buffer⟩, by decide⟩

/-- Claim C2: evaluating invoke on a concrete batch of two references with
a transport that answers both shows that the per-request outcomes are only
printed and then discarded (the stream collects two unit values, one per
request) and that invoke returns the single error MissingTool for the
whole batch instead of one result per input request. -/
theorem invoke_discards_per_request_results :
    (ReferenceFilterBroker.invoke (ToolInput.ReferenceFilter (demoContext 2))
        demoTransport).printed = [Except.ok "ans", Except.ok "ans"] ∧
    (ReferenceFilterBroker.invoke (ToolInput.ReferenceFilter (demoContext 2))
        demoTransport).collected = [(), ()] ∧
    (ReferenceFilterBroker.invoke (ToolInput.ReferenceFilter (demoContext 2))
        demoTransport).result = Except.error ToolError.MissingTool :=
  ⟨by decide, by decide, by decide⟩

/-- A scheduler step never pushes the in-flight count above the cap. -/
theorem brokerStep_inFlight_le {cap : Nat} {s t : BrokerState}
    (hst : BrokerStep cap s t) (hs : s.inFlight.length ≤ cap) :
    t.inFlight.length ≤ cap := by
  cases hst with
  | start x rest s hcap hp =>
    simp only [List.length_cons]
    omega
  | finish x l1 l2 s hf =>
    rw [hf] at hs
    simp only [List.length_append, List.length_cons] at hs ⊢
    omega

/-- The in-flight bound is invariant along every reachable execution. -/
theorem brokerReachable_inFlight_le {cap : Nat} {s0 s : BrokerState}
    (h : Relation.ReflTransGen (BrokerStep cap) s0 s)
    (h0 : s0.inFlight.length ≤ cap) : s.inFlight.length ≤ cap := by
  induction h with
  | refl => exact h0
  | tail hr hstep ih => exact brokerStep_inFlight_le hstep ih

/-- Each scheduler step preserves the multiset of requests. -/
theorem brokerStep_perm {cap : Nat} {s t : BrokerState} (hst : BrokerStep cap s t) :
    (t.pending ++ (t.inFlight ++ t.done)).Perm (s.pending ++ (s.inFlight ++ s.done)) := by
  cases hst with
  | start x rest s hcap hp =>
    rw [hp]
    exact List.perm_middle
  | finish x l1 l2 s hf =>
    rw [hf]
    refine List.Perm.append_left s.pending ?_
    have h1 : ((l1 ++ l2) ++ (x :: s.done)).Perm (x :: (l1 ++ l2 ++ s.done)) :=
      List.perm_middle
    have h3 : (l1 ++ x :: (l2 ++ s.done)).Perm (x :: (l1 ++ (l2 ++ s.done))) :=
      List.perm_middle
    simp only [List.append_assoc] at h1
    have h4 := h1.trans h3.symm
    simpa [List.append_assoc] using h4

/-- The multiset of requests is invariant along every reachable execution. -/
theorem brokerReachable_perm {cap : Nat} {s0 s : BrokerState}
    (h : Relation.ReflTransGen (BrokerStep cap) s0 s) :
    (s.pending ++ (s.inFlight ++ s.done)).Perm (s0.pending ++ (s0.inFlight ++ s0.done)) := by
  induction h with
  | refl => exact List.Perm.refl _
  | tail hr hstep ih => exact (brokerStep_perm hstep).trans ih

/-- Claim C8 (amended): the ceiling buffer_unordered enforces is the
hard-coded 200 of invoke, not a caller-supplied limit: along every
execution of one invoke dispatch the in-flight count never exceeds 200,
whatever the batch size, and when the stream drains (nothing pending,
nothing in flight) every dispatched request has been finished exactly once
(the finished list is a permutation of the batch). The per-request
results themselves are printed and dropped by invoke rather than
returned. -/
theorem broker_bounded_and_drains (context : ReferenceFilterRequest) (s : BrokerState)
    (h : BrokerReachable refFilterConcurrencyCap (initialBrokerState context) s) :
    s.inFlight.length ≤ refFilterConcurrencyCap ∧
    (s.pending = [] → s.inFlight = [] →
      s.done.Perm (ReferenceFilterBroker.user_message context)) := by
  have h2 : Relation.ReflTransGen (BrokerStep refFilterConcurrencyCap)
      (initialBrokerState context) s := h
  constructor
  · refine brokerReachable_inFlight_le h2 ?_
    simp [initialBrokerState, refFilterConcurrencyCap]
  · intro hp hi
    have hperm := brokerReachable_perm h2
    rw [hp, hi] at hperm
    simpa [initialBrokerState] using hperm

/-- Witness for C8 (amended): the initial state of a one-reference batch
is reachable and satisfies both conjuncts. -/
theorem broker_bounded_and_drains_witness :
    (initialBrokerState (demoContext 1)).inFlight.length ≤ refFilterConcurrencyCap ∧
    ((initialBrokerState (demoContext 1)).pending = [] →
      (initialBrokerState (demoContext 1)).inFlight = [] →
      (initialBrokerState (demoContext 1)).done.Perm
        (ReferenceFilterBroker.user_message (demoContext 1))) :=
  broker_bounded_and_drains (demoContext 1) (initialBrokerState (demoContext 1))
    Relation.ReflTransGen.refl

/-- Starting the first k pending requests in order is a valid execution
while k stays within the cap. -/
theorem broker_start_reachable (cap : Nat) (msgs : List String) (k : Nat)
    (hk : k ≤ cap) (hn : k ≤ msgs.length) :
    Relation.ReflTransGen (BrokerStep cap) ⟨msgs, [], []⟩
      ⟨msgs.drop k, (msgs.take k).reverse, []⟩ := by
  induction k with
  | zero => simpa using Relation.ReflTransGen.refl
  | succ k ih =>
    have hk2 : k ≤ cap := Nat.le_of_succ_le hk
    have hn2 : k < msgs.length := Nat.lt_of_succ_le hn
    have hlen : ((msgs.take k).reverse).length = k := by
      simp [Nat.min_eq_left (Nat.le_of_lt hn2)]
    have hd : msgs.drop k = msgs[k] :: msgs.drop (k + 1) :=
      List.drop_eq_getElem_cons hn2
    have hstep : BrokerStep cap ⟨msgs.drop k, (msgs.take k).reverse, []⟩
        ⟨msgs.drop (k + 1), msgs[k] :: (msgs.take k).reverse, []⟩ :=
      BrokerStep.start msgs[k] (msgs.drop (k + 1))
      ⟨msgs.drop k, (msgs.take k).reverse, []⟩
      (by rw [show (⟨msgs.drop k, (msgs.take k).reverse, []⟩ :
        BrokerState).inFlight.length = k from hlen]; omega) hd
    have ht : (msgs.take (k + 1)).reverse = msgs[k] :: (msgs.take k).reverse := by
      rw [List.take_succ, List.getElem?_eq_getElem hn2]
      simp
    refine Relation.ReflTransGen.tail (ih hk2 (Nat.le_of_lt hn2)) ?_
    rw [ht]
    exact hstep

/-- Claim C8 counterexample: with a batch of 500 dispatched requests the
scheduler of invoke can reach a state with 51 requests in flight, so a
caller-intended concurrency limit of 50 is not enforced (the only ceiling
is the hard-coded 200). -/
theorem broker_exceeds_fifty_in_flight :
    ∃ s : BrokerState,
      BrokerReachable refFilterConcurrencyCap (initialBrokerState (demoContext 500)) s ∧
        50 < s.inFlight.length := by
  have hlen : (ReferenceFilterBroker.user_message (demoContext 500)).length = 500 := by
    rw [user_message_length]
    simp only [demoContext, List.length_replicate]
  refine ⟨⟨(ReferenceFilterBroker.user_message (demoContext 500)).drop 51,
    ((ReferenceFilterBroker.user_message (demoContext 500)).take 51).reverse, []⟩, ?_, ?_⟩
  · exact broker_start_reachable refFilterConcurrencyCap
      (ReferenceFilterBroker.user_message (demoContext 500)) 51
      (by simp [refFilterConcurrencyCap]) (by rw [hlen]; omega)
  · simp [hlen]
